import Mathlib

/-!
Shallow embedding of the join-state and uplink-counter persistence engine of
`src/src/main.cpp` (SEEED LoRa-E5 sensor node): the boot-time counter
reconciler `retrieve_fcnt`, the session decision in `setup`, the transmit
entry `send_packet`, the `EV_TXCOMPLETE` bookkeeping of `onLmicEvent`, and
the sleep-time computation in `loop`.

Machine integers are modelled as `Nat` with explicit reduction modulo
`2 ^ 32`; the `int32_t` global `xmitcount` is modelled as `Int` through
`toInt32`.  The two 16-byte session keys are modelled as opaque `Nat`
values, since the program only copies them wholesale.
-/

namespace LoraE5

/-- `DATAVALID` sentinel marking both storage tiers valid (main.cpp line 43). -/
def DATAVALID : Nat := 67329752

/-- `REJOIN_LIMIT`: rejoin after this number of transmits (main.cpp line 48). -/
def REJOIN_LIMIT : Nat := 300

/-- Reduction modulo `2 ^ 32`: the `uint32_t` wrap. -/
def wrap32 (n : Nat) : Nat := n % 4294967296

/-- `uint32_t` subtraction `a - b` with wraparound. -/
def sub32 (a b : Nat) : Nat :=
  (a % 4294967296 + (4294967296 - b % 4294967296)) % 4294967296

/-- Reading a 32-bit register value into a C `int32_t` variable
(the `xmitcount = getBackupRegister(...)` assignment, main.cpp line 321). -/
def toInt32 (n : Nat) : Int :=
  if n % 4294967296 < 2147483648 then ((n % 4294967296 : Nat) : Int)
  else ((n % 4294967296 : Nat) : Int) - 4294967296

/-- Converting an `int32_t` value back to its 32-bit register representation
(the `setBackupRegister(BKP_R_XMITCNT, ++xmitcount)` call, main.cpp line 438). -/
def toUInt32 (i : Int) : Nat := (i % 4294967296).toNat

/-- `eepromdata_t` (main.cpp lines 51-59).  The 16-byte keys are opaque values. -/
structure Eepromdata where
  datavalid : Nat
  fcnt : Nat
  joinedFlag : Bool
  devaddr : Nat
  nwkSKey : Nat
  appSKey : Nat
deriving Repr, DecidableEq

/-- The three RTC backup registers used by the program (main.cpp lines 44-46). -/
structure BackupRegs where
  datavalid : Nat
  fcnt : Nat
  xmitcnt : Nat
deriving Repr, DecidableEq

/-- The persistent machine state: simulated-EEPROM contents (durable tier)
and RTC backup registers (fast, battery-backed tier). -/
structure MachineState where
  flash : Eepromdata
  bkp : BackupRegs
deriving Repr, DecidableEq

/-- Result of `retrieve_fcnt`: updated persistent state, the in-memory
`eepromdata` global, and the `int32_t` global `xmitcount`. -/
structure RetrieveResult where
  state : MachineState
  eeprom : Eepromdata
  xmitcount : Int
deriving Repr, DecidableEq

/-- `retrieve_fcnt` (main.cpp lines 292-344), the boot-time reconciler.
Reads the EEPROM record and backup registers, reinitialises an invalid
EEPROM record, adds the margin 101 to a valid EEPROM counter, and when the
backup registers are valid adopts their counter; `savflag` selects whether
the EEPROM is rewritten at the end. -/
def retrieve_fcnt (s : MachineState) : RetrieveResult :=
  let e1 : Eepromdata :=
    if s.flash.datavalid ≠ DATAVALID then
      { s.flash with datavalid := DATAVALID, fcnt := 0, joinedFlag := false }
    else
      { s.flash with fcnt := wrap32 (s.flash.fcnt + 101) }
  if s.bkp.datavalid = DATAVALID then
    let e2 := { e1 with fcnt := s.bkp.fcnt }
    { state :=
        { flash :=
            if s.flash.datavalid ≠ DATAVALID ∨ s.bkp.fcnt > wrap32 (e1.fcnt + 100) then e2
            else s.flash,
          bkp := s.bkp },
      eeprom := e2,
      xmitcount := toInt32 s.bkp.xmitcnt }
  else
    { state :=
        { flash := if s.flash.datavalid ≠ DATAVALID then e1 else s.flash,
          bkp := { datavalid := DATAVALID, fcnt := e1.fcnt, xmitcnt := REJOIN_LIMIT } },
      eeprom := e1,
      xmitcount := (REJOIN_LIMIT : Int) }

/-- `JOINMODE_OTAA` (LoRa_Device_01.h line 5). -/
def JOINMODE_OTAA : Nat := 1

/-- `JOINMODE_ABP` (LoRa_Device_01.h line 6). -/
def JOINMODE_ABP : Nat := 2

/-- Outcome of the session decision in `setup`: updated persistent state,
in-memory `eepromdata`, the `xmitcount` global, whether the saved session was
resumed, the final `JoinMode`, the `LMIC_setSession` arguments when the ABP
path is taken (`none` means a fresh over-the-air join is left to the stack),
and the `LMIC.seqnoUp` value installed. -/
structure PolicyResult where
  state : MachineState
  eeprom : Eepromdata
  xmitcount : Int
  resumed : Bool
  joinMode : Nat
  sessionSet : Option (Nat × Nat × Nat)
  seqnoUp : Option Nat
deriving Repr, DecidableEq

/-- The session decision of `setup` (main.cpp lines 429-458), with the
configured `JoinMode = JOINMODE_OTAA` (LoRa_Device_01.h line 9).  When
`xmitcount < REJOIN_LIMIT` and the EEPROM record says joined, the saved
device address and keys are loaded, `xmitcount` is incremented into the
backup register and the ABP block installs the session and the counter;
otherwise the transmit counter is cleared, the joined flag is cleared and
saved, and the join is left to the radio stack. -/
def sessionPolicy (r : RetrieveResult) : PolicyResult :=
  if r.xmitcount < (REJOIN_LIMIT : Int) ∧ r.eeprom.joinedFlag = true then
    { state := { r.state with
        bkp := { r.state.bkp with xmitcnt := toUInt32 (r.xmitcount + 1) } },
      eeprom := r.eeprom,
      xmitcount := r.xmitcount + 1,
      resumed := true,
      joinMode := JOINMODE_ABP,
      sessionSet := some (r.eeprom.devaddr, r.eeprom.nwkSKey, r.eeprom.appSKey),
      seqnoUp := some r.eeprom.fcnt }
  else
    let e2 := { r.eeprom with joinedFlag := false }
    { state := { flash := e2, bkp := { r.state.bkp with xmitcnt := 0 } },
      eeprom := e2,
      xmitcount := 0,
      resumed := false,
      joinMode := JOINMODE_OTAA,
      sessionSet := none,
      seqnoUp := none }

/-- State touched by `send_packet`: in-memory `eepromdata`, EEPROM contents,
backup registers and the LED line (`true` is the idle HIGH level). -/
structure SendState where
  eeprom : Eepromdata
  flash : Eepromdata
  bkp : BackupRegs
  led : Bool
deriving Repr, DecidableEq

/-- `send_packet` (main.cpp lines 238-258): returns the new state and the
counter value the queued payload is tagged with (`none` when nothing was
queued).  `txrxpend` is the `LMIC.opmode & OP_TXRXPEND` test. -/
def send_packet (txrxpend : Bool) (st : SendState) : SendState × Option Nat :=
  if txrxpend then (st, none)
  else
    let flash1 := if st.eeprom.fcnt % 100 = 0 then st.eeprom else st.flash
    ({ st with flash := flash1, led := true }, some st.eeprom.fcnt)

/-- The sleep-time computation of `loop` (main.cpp lines 510-516):
`sleeptime = tx_interval_sec * 1000 - millis() - 50` in `uint32_t`
arithmetic, truncated to seconds, then clamped when the derived seconds
exceed the interval.  Returns `(sleeptime, sleeptime_sec)`. -/
def computeSleep (tx_interval_sec elapsed : Nat) : Nat × Nat :=
  let sleeptime := sub32 (sub32 (wrap32 (tx_interval_sec * 1000)) elapsed) 50
  let sleeptime_sec := sleeptime / 1000
  if sleeptime_sec > tx_interval_sec then
    (wrap32 (tx_interval_sec * 1000), tx_interval_sec)
  else
    (sleeptime, sleeptime_sec)

/-- How far a boot cycle gets before the next reset.  `aborted` models a
reset or power event after `setup` finished but before `EV_TXCOMPLETE` was
processed; `completed` models the cycle running through transmission to deep
sleep.  Modelled from the spec: the radio/MAC stack is an external
collaborator (spec sections 1 and 6) reporting `onJoinComplete(sessionAddress,
networkKey, appKey)` and `onTransmitComplete(updatedCounter)`; for a boot
taking the full-join path the fresh session material `joinAddr`/`joinNwk`/
`joinApp` and the post-transmission counter `joinCounter` of the new session
are the stack's inputs, while for a resumed session seeded with
`seqnoUp = fcnt` the stack reports `fcnt + 1`. -/
inductive BootOutcome where
  | aborted : BootOutcome
  | completed (joinCounter joinAddr joinNwk joinApp : Nat) : BootOutcome
deriving Repr, DecidableEq

/-- Whether the boot cycle ran to completion. -/
def BootOutcome.isCompleted : BootOutcome → Bool
  | .aborted => false
  | .completed _ _ _ _ => true

/-- Observables of one boot: final persistent state, the reconciler's
effective counter (`eepromdata.fcnt` after `retrieve_fcnt`), whether the
session was resumed, whether a full join succeeded during the boot, and the
ABP counter actually used for a completed resumed transmission. -/
structure BootResult where
  state : MachineState
  effCounter : Nat
  resumed : Bool
  joined : Bool
  usedCounter : Option Nat
deriving Repr, DecidableEq

/-- One full boot cycle: `retrieve_fcnt`, the `setup` session decision, and
(when the cycle completes) `send_packet`'s periodic EEPROM checkpoint, the
`EV_TXCOMPLETE` bookkeeping (main.cpp lines 201-206: `eepromdata.fcnt`
and `BKP_R_FCNT` take `LMIC.seqnoUp`), and for a freshly joined session the
`saveOTAAkeys` write performed in `loop` (main.cpp lines 503-507). -/
def runBoot (s : MachineState) (o : BootOutcome) : BootResult :=
  let r := retrieve_fcnt s
  let p := sessionPolicy r
  match o with
  | .aborted =>
    { state := p.state, effCounter := r.eeprom.fcnt, resumed := p.resumed,
      joined := false, usedCounter := none }
  | .completed u a nk ak =>
    if p.resumed then
      let flash1 := if p.eeprom.fcnt % 100 = 0 then p.eeprom else p.state.flash
      let fcnt2 := wrap32 (p.eeprom.fcnt + 1)
      { state := { flash := flash1, bkp := { p.state.bkp with fcnt := fcnt2 } },
        effCounter := r.eeprom.fcnt, resumed := true, joined := false,
        usedCounter := some p.eeprom.fcnt }
    else
      let e2 := { p.eeprom with fcnt := wrap32 u }
      let e3 := { e2 with devaddr := a, nwkSKey := nk, appSKey := ak, joinedFlag := true }
      { state := { flash := e3, bkp := { p.state.bkp with fcnt := e2.fcnt } },
        effCounter := r.eeprom.fcnt, resumed := false, joined := true,
        usedCounter := none }

/-- A history of boots separated by deep sleeps or warm resets (the
persistent state carries over unchanged between cycles). -/
def runBoots : MachineState → List BootOutcome → MachineState × List BootResult
  | s, [] => (s, [])
  | s, o :: os =>
    let r := runBoot s o
    let rest := runBoots r.state os
    (rest.1, r :: rest.2)

lemma runBoot_resumed_eq (s : MachineState) (o : BootOutcome) :
    (runBoot s o).resumed = (sessionPolicy (retrieve_fcnt s)).resumed := by
  cases o with
  | aborted => rfl
  | completed u a nk ak =>
    by_cases h : (sessionPolicy (retrieve_fcnt s)).resumed = true <;>
      simp [runBoot, h]

lemma sessionPolicy_resumed_iff (r : RetrieveResult) :
    (sessionPolicy r).resumed = true ↔
      (r.xmitcount < (REJOIN_LIMIT : Int) ∧ r.eeprom.joinedFlag = true) := by
  unfold sessionPolicy
  split_ifs with h <;> simp [h]

lemma sessionPolicy_resumed_fields (r : RetrieveResult)
    (h : (sessionPolicy r).resumed = true) :
    (sessionPolicy r).eeprom = r.eeprom ∧
    (sessionPolicy r).state.bkp.fcnt = r.state.bkp.fcnt ∧
    (sessionPolicy r).state.flash = r.state.flash := by
  unfold sessionPolicy at *
  split_ifs at h ⊢
  simp_all

lemma retrieve_fcnt_bkpValid (s : MachineState) (hb : s.bkp.datavalid = DATAVALID) :
    (retrieve_fcnt s).eeprom.fcnt = s.bkp.fcnt ∧
    (retrieve_fcnt s).xmitcount = toInt32 s.bkp.xmitcnt ∧
    (retrieve_fcnt s).state.bkp = s.bkp := by
  unfold retrieve_fcnt
  split_ifs <;> simp_all

lemma retrieve_fcnt_bkpInvalid (s : MachineState) (hb : s.bkp.datavalid ≠ DATAVALID) :
    (retrieve_fcnt s).xmitcount = (REJOIN_LIMIT : Int) ∧
    (retrieve_fcnt s).state.bkp.xmitcnt = REJOIN_LIMIT ∧
    (retrieve_fcnt s).state.bkp.datavalid = DATAVALID := by
  unfold retrieve_fcnt
  split_ifs <;> simp_all

lemma runBoot_resumed_spec (s : MachineState) (o : BootOutcome)
    (h : (runBoot s o).resumed = true) (hw : s.bkp.fcnt + 1 < 4294967296) :
    (runBoot s o).effCounter = s.bkp.fcnt ∧
    (runBoot s o).usedCounter = (if o.isCompleted then some s.bkp.fcnt else none) ∧
    (runBoot s o).state.bkp.fcnt = (if o.isCompleted then s.bkp.fcnt + 1 else s.bkp.fcnt) := by
  rw [runBoot_resumed_eq] at h
  have hcond := (sessionPolicy_resumed_iff (retrieve_fcnt s)).mp h
  have hb : s.bkp.datavalid = DATAVALID := by
    by_contra hb
    have := (retrieve_fcnt_bkpInvalid s hb).1
    rw [this] at hcond
    exact absurd hcond.1 (by norm_num [REJOIN_LIMIT])
  obtain ⟨hfc, hxc, hbk⟩ := retrieve_fcnt_bkpValid s hb
  obtain ⟨hpe, hpf, _⟩ := sessionPolicy_resumed_fields (retrieve_fcnt s) h
  cases o with
  | aborted =>
    refine ⟨hfc, ?_, ?_⟩
    · simp [runBoot, BootOutcome.isCompleted]
    · have he : (runBoot s .aborted).state.bkp.fcnt
          = (sessionPolicy (retrieve_fcnt s)).state.bkp.fcnt := rfl
      rw [he, hpf, hbk]
      simp [BootOutcome.isCompleted]
  | completed u a nk ak =>
    refine ⟨?_, ?_, ?_⟩
    · have he : (runBoot s (.completed u a nk ak)).effCounter
          = (retrieve_fcnt s).eeprom.fcnt := by
        simp [runBoot, h]
      rw [he]
      exact hfc
    · have he : (runBoot s (.completed u a nk ak)).usedCounter
          = some (sessionPolicy (retrieve_fcnt s)).eeprom.fcnt := by
        simp [runBoot, h]
      rw [he, hpe, hfc]
      simp [BootOutcome.isCompleted]
    · have he : (runBoot s (.completed u a nk ak)).state.bkp.fcnt
          = wrap32 ((sessionPolicy (retrieve_fcnt s)).eeprom.fcnt + 1) := by
        simp [runBoot, h]
      rw [he, hpe, hfc]
      simp [BootOutcome.isCompleted, wrap32, Nat.mod_eq_of_lt hw]

lemma runBoots_cons (s : MachineState) (o : BootOutcome) (os : List BootOutcome) :
    runBoots s (o :: os) = ((runBoots (runBoot s o).state os).1,
      runBoot s o :: (runBoots (runBoot s o).state os).2) := rfl

lemma runBoots_resumed_inv (os : List BootOutcome) :
    ∀ s : MachineState,
      (∀ r ∈ (runBoots s os).2, r.resumed = true) →
      s.bkp.fcnt + os.length < 4294967296 →
      s.bkp.fcnt ≤ (runBoots s os).1.bkp.fcnt ∧
      (runBoots s os).1.bkp.fcnt ≤ s.bkp.fcnt + os.length ∧
      (∀ r ∈ (runBoots s os).2, s.bkp.fcnt ≤ r.effCounter) ∧
      (∀ r ∈ (runBoots s os).2, ∀ u, r.usedCounter = some u →
        s.bkp.fcnt ≤ u ∧ u < (runBoots s os).1.bkp.fcnt) ∧
      List.Pairwise (fun a b => a ≤ b) ((runBoots s os).2.map BootResult.effCounter) ∧
      List.Pairwise (fun a b => a < b) ((runBoots s os).2.filterMap BootResult.usedCounter) := by
  induction os with
  | nil =>
    intro s _ _
    simp [runBoots]
  | cons o os ih =>
    intro s hres hbound
    rw [runBoots_cons] at hres ⊢
    simp only [List.length_cons] at hbound
    have hr : (runBoot s o).resumed = true := hres _ (List.mem_cons_self _ _)
    have hw : s.bkp.fcnt + 1 < 4294967296 := by omega
    obtain ⟨heff, hused, hbfc⟩ := runBoot_resumed_spec s o hr hw
    have hres' : ∀ r ∈ (runBoots (runBoot s o).state os).2, r.resumed = true :=
      fun r hm => hres r (List.mem_cons_of_mem _ hm)
    have hstep : s.bkp.fcnt ≤ (runBoot s o).state.bkp.fcnt ∧
        (runBoot s o).state.bkp.fcnt ≤ s.bkp.fcnt + 1 := by
      rw [hbfc]; split <;> omega
    have hb1 : (runBoot s o).state.bkp.fcnt + os.length < 4294967296 := by omega
    obtain ⟨ih1, ih2, ih3, ih4, ih5, ih6⟩ := ih (runBoot s o).state hres' hb1
    refine ⟨le_trans hstep.1 ih1, ?_, ?_, ?_, ?_, ?_⟩
    · simp only [List.length_cons]
      omega
    · intro r hm
      rcases List.mem_cons.mp hm with rfl | hm
      · rw [heff]
      · exact le_trans hstep.1 (ih3 r hm)
    · intro r hm u hu
      rcases List.mem_cons.mp hm with rfl | hm
      · rw [hused] at hu
        by_cases hc : o.isCompleted = true
        · rw [if_pos hc] at hu
          obtain rfl := Option.some.inj hu
          refine ⟨le_refl _, lt_of_lt_of_le ?_ ih1⟩
          rw [hbfc, if_pos hc]
          omega
        · rw [if_neg hc] at hu
          exact absurd hu (by simp)
      · obtain ⟨h1, h2⟩ := ih4 r hm u hu
        exact ⟨le_trans hstep.1 h1, h2⟩
    · rw [List.map_cons]
      refine List.Pairwise.cons ?_ ih5
      intro e he
      rw [heff]
      obtain ⟨r, hm, rfl⟩ := List.mem_map.mp he
      exact le_trans hstep.1 (ih3 r hm)
    · rw [List.filterMap_cons]
      rcases hc : (runBoot s o).usedCounter with _ | u
      · exact ih6
      · refine List.Pairwise.cons ?_ ih6
        intro v hv
        obtain ⟨r, hm, hru⟩ := List.mem_filterMap.mp hv
        rw [hused] at hc
        by_cases hcomp : o.isCompleted = true
        · rw [if_pos hcomp] at hc
          obtain rfl := Option.some.inj hc
          have hv1 : (runBoot s o).state.bkp.fcnt ≤ v := (ih4 r hm v hru).1
          rw [hbfc, if_pos hcomp] at hv1
          omega
        · rw [if_neg hcomp] at hc
          exact absurd hc (by simp)

/-- C1 (counterexample): a history in which a cold power loss (invalid
backup registers) forces a full rejoin, whose fresh session reports counter
1 at transmit completion, followed by a warm reset: the reconciler's
effective counters are 301 and then 1, so a later effective counter is
less than an earlier one and the claimed monotonicity fails. -/
theorem effCounter_regression_counterexample :
    ((runBoots ⟨⟨DATAVALID, 200, true, 5, 6, 7⟩, ⟨0, 0, 0⟩⟩
        [.completed 1 9 8 7, .aborted]).2.map BootResult.effCounter) = [301, 1] ∧
    ¬ List.Pairwise (fun a b => a ≤ b)
      ((runBoots ⟨⟨DATAVALID, 200, true, 5, 6, 7⟩, ⟨0, 0, 0⟩⟩
        [.completed 1 9 8 7, .aborted]).2.map BootResult.effCounter) := by
  decide

/-- C1 (amended): over any history of boots each of which resumes the saved
session (no full join, hence no cold loss, is involved), and whose counters
stay below the 32-bit wrap, the reconciler's effective counter is never less
than any effective counter of a prior boot, and the counters used for
transmissions are strictly increasing, so no counter is repeated. -/
theorem resumed_history_monotone (s : MachineState) (os : List BootOutcome)
    (hres : ∀ r ∈ (runBoots s os).2, r.resumed = true)
    (hbound : s.bkp.fcnt + os.length < 4294967296) :
    List.Pairwise (fun a b => a ≤ b) ((runBoots s os).2.map BootResult.effCounter) ∧
    List.Pairwise (fun a b => a < b) ((runBoots s os).2.filterMap BootResult.usedCounter) :=
  ⟨(runBoots_resumed_inv os s hres hbound).2.2.2.2.1,
   (runBoots_resumed_inv os s hres hbound).2.2.2.2.2⟩

/-- Witness for the amended C1 at a concrete three-boot resumed history. -/
theorem resumed_history_monotone_witness :
    List.Pairwise (fun a b => a ≤ b)
      ((runBoots ⟨⟨DATAVALID, 100, true, 1, 2, 3⟩, ⟨DATAVALID, 10, 0⟩⟩
        [.completed 0 0 0 0, .aborted, .completed 0 0 0 0]).2.map BootResult.effCounter) ∧
    List.Pairwise (fun a b => a < b)
      ((runBoots ⟨⟨DATAVALID, 100, true, 1, 2, 3⟩, ⟨DATAVALID, 10, 0⟩⟩
        [.completed 0 0 0 0, .aborted, .completed 0 0 0 0]).2.filterMap BootResult.usedCounter) :=
  resumed_history_monotone _ _ (by decide) (by decide)

/-- C2 (counterexample): with a valid durable record at counter 200 and valid
fast registers at 205, the claim says the effective counter stays at
200 + 101 = 301 because 205 does not exceed 301 + 101; the code instead
adopts 205. -/
theorem retrieve_keeps_margin_counterexample :
    (retrieve_fcnt ⟨⟨DATAVALID, 200, true, 11, 22, 33⟩,
        ⟨DATAVALID, 205, 10⟩⟩).eeprom.fcnt = 205 ∧ (205 : Nat) ≠ 200 + 101 := by
  decide

/-- C2 (amended): when both tiers are valid the reconciler first forms
`durable.fcnt + 101` and then adopts the fast counter unconditionally; the
durable record is rewritten exactly when the fast counter exceeds
`durable.fcnt + 201`, that is the margined value plus 100 (not plus the
margin 101). -/
lemma retrieve_fcnt_bothValid (s : MachineState)
    (hd : s.flash.datavalid = DATAVALID) (hb : s.bkp.datavalid = DATAVALID) :
    retrieve_fcnt s =
      { state := { flash := if s.bkp.fcnt > wrap32 (wrap32 (s.flash.fcnt + 101) + 100)
                     then { s.flash with fcnt := s.bkp.fcnt } else s.flash,
                   bkp := s.bkp },
        eeprom := { s.flash with fcnt := s.bkp.fcnt },
        xmitcount := toInt32 s.bkp.xmitcnt } := by
  unfold retrieve_fcnt
  simp [hd, hb]

theorem retrieve_adopts_fast_unconditionally (s : MachineState)
    (hd : s.flash.datavalid = DATAVALID) (hb : s.bkp.datavalid = DATAVALID)
    (hn : s.flash.fcnt + 201 < 4294967296) :
    (retrieve_fcnt s).eeprom.fcnt = s.bkp.fcnt ∧
    (s.flash.fcnt + 201 < s.bkp.fcnt →
      (retrieve_fcnt s).state.flash = (retrieve_fcnt s).eeprom) ∧
    (s.bkp.fcnt ≤ s.flash.fcnt + 201 →
      (retrieve_fcnt s).state.flash = s.flash) := by
  have hmod : wrap32 (wrap32 (s.flash.fcnt + 101) + 100) = s.flash.fcnt + 201 := by
    unfold wrap32
    rw [Nat.mod_eq_of_lt (show s.flash.fcnt + 101 < 4294967296 by omega)]
    rw [Nat.mod_eq_of_lt (show s.flash.fcnt + 101 + 100 < 4294967296 by omega)]
  rw [retrieve_fcnt_bothValid s hd hb, hmod]
  refine ⟨rfl, ?_, ?_⟩
  · intro hgt
    rw [if_pos (by omega)]
  · intro hle
    rw [if_neg (by omega)]

/-- Witness for the amended C2: durable counter 200, fast counter 205. -/
theorem retrieve_adopts_fast_unconditionally_witness :
    (retrieve_fcnt ⟨⟨DATAVALID, 200, true, 11, 22, 33⟩,
        ⟨DATAVALID, 205, 10⟩⟩).eeprom.fcnt = 205 ∧
    (retrieve_fcnt ⟨⟨DATAVALID, 200, true, 11, 22, 33⟩,
        ⟨DATAVALID, 205, 10⟩⟩).state.flash = ⟨DATAVALID, 200, true, 11, 22, 33⟩ :=
  ⟨(retrieve_adopts_fast_unconditionally _ (by decide) (by decide) (by decide)).1,
   (retrieve_adopts_fast_unconditionally _ (by decide) (by decide) (by decide)).2.2 (by decide)⟩

/-- C3: with durable `fcnt = 200, joined = true` and fast
`fcnt = 205, xmitcnt = 10`, the reconciler adopts 205 and the session
decision resumes: the saved device address and keys are installed through
`LMIC_setSession` and the counter 205 becomes the session uplink counter. -/
theorem scenarioC_resumes_with_fast_counter :
    (retrieve_fcnt ⟨⟨DATAVALID, 200, true, 11, 22, 33⟩,
        ⟨DATAVALID, 205, 10⟩⟩).eeprom.fcnt = 205 ∧
    (sessionPolicy (retrieve_fcnt ⟨⟨DATAVALID, 200, true, 11, 22, 33⟩,
        ⟨DATAVALID, 205, 10⟩⟩)).resumed = true ∧
    (sessionPolicy (retrieve_fcnt ⟨⟨DATAVALID, 200, true, 11, 22, 33⟩,
        ⟨DATAVALID, 205, 10⟩⟩)).joinMode = JOINMODE_ABP ∧
    (sessionPolicy (retrieve_fcnt ⟨⟨DATAVALID, 200, true, 11, 22, 33⟩,
        ⟨DATAVALID, 205, 10⟩⟩)).sessionSet = some (11, 22, 33) ∧
    (sessionPolicy (retrieve_fcnt ⟨⟨DATAVALID, 200, true, 11, 22, 33⟩,
        ⟨DATAVALID, 205, 10⟩⟩)).seqnoUp = some 205 := by
  decide

lemma sessionPolicy_not_resumed_fields (r : RetrieveResult)
    (h : (sessionPolicy r).resumed = false) :
    (sessionPolicy r).sessionSet = none ∧
    (sessionPolicy r).seqnoUp = none ∧
    (sessionPolicy r).joinMode = JOINMODE_OTAA ∧
    (sessionPolicy r).eeprom = { r.eeprom with joinedFlag := false } ∧
    (sessionPolicy r).state.flash = { r.eeprom with joinedFlag := false } ∧
    (sessionPolicy r).state.bkp = { r.state.bkp with xmitcnt := 0 } := by
  unfold sessionPolicy at *
  split_ifs at h ⊢
  simp_all

lemma sessionPolicy_resumed_xmitcnt (r : RetrieveResult)
    (h : (sessionPolicy r).resumed = true) :
    (sessionPolicy r).state.bkp.xmitcnt = toUInt32 (r.xmitcount + 1) := by
  unfold sessionPolicy at *
  split_ifs at h ⊢
  simp_all

lemma retrieve_fcnt_flashValid_bkpInvalid (s : MachineState)
    (hd : s.flash.datavalid = DATAVALID) (hb : s.bkp.datavalid ≠ DATAVALID) :
    retrieve_fcnt s =
      { state := { flash := s.flash,
                   bkp := ⟨DATAVALID, wrap32 (s.flash.fcnt + 101), REJOIN_LIMIT⟩ },
        eeprom := { s.flash with fcnt := wrap32 (s.flash.fcnt + 101) },
        xmitcount := (REJOIN_LIMIT : Int) } := by
  unfold retrieve_fcnt
  simp [hd, hb]

lemma retrieve_fcnt_flashInvalid (s : MachineState) (hd : s.flash.datavalid ≠ DATAVALID) :
    retrieve_fcnt s =
      if s.bkp.datavalid = DATAVALID then
        { state := { flash := { s.flash with
                       datavalid := DATAVALID, fcnt := s.bkp.fcnt, joinedFlag := false },
                     bkp := s.bkp },
          eeprom := { s.flash with
            datavalid := DATAVALID, fcnt := s.bkp.fcnt, joinedFlag := false },
          xmitcount := toInt32 s.bkp.xmitcnt }
      else
        { state := { flash := { s.flash with
                       datavalid := DATAVALID, fcnt := 0, joinedFlag := false },
                     bkp := ⟨DATAVALID, 0, REJOIN_LIMIT⟩ },
          eeprom := { s.flash with
            datavalid := DATAVALID, fcnt := 0, joinedFlag := false },
          xmitcount := (REJOIN_LIMIT : Int) } := by
  unfold retrieve_fcnt
  split_ifs with hb <;> simp [hd, hb]

/-- C4: whenever the fast tier's validity marker mismatches (cold power
loss), the reconciler forces `xmitcount = REJOIN_LIMIT` both in the global
and in the rewritten register, the session decision does not resume
(regardless of the durable joined flag), no saved session is installed, and
with a valid durable record at counter 200 the effective counter is 301. -/
theorem cold_loss_forces_rejoin (s : MachineState) (h : s.bkp.datavalid ≠ DATAVALID) :
    (retrieve_fcnt s).xmitcount = (REJOIN_LIMIT : Int) ∧
    (retrieve_fcnt s).state.bkp.xmitcnt = REJOIN_LIMIT ∧
    (sessionPolicy (retrieve_fcnt s)).resumed = false ∧
    (sessionPolicy (retrieve_fcnt s)).sessionSet = none ∧
    (s.flash.datavalid = DATAVALID → s.flash.fcnt = 200 →
      (retrieve_fcnt s).eeprom.fcnt = 301) := by
  obtain ⟨h1, h2, _⟩ := retrieve_fcnt_bkpInvalid s h
  have hnr : (sessionPolicy (retrieve_fcnt s)).resumed = false := by
    rw [← Bool.not_eq_true]
    intro hr
    have hc := (sessionPolicy_resumed_iff _).mp hr
    rw [h1] at hc
    exact absurd hc.1 (by norm_num [REJOIN_LIMIT])
  refine ⟨h1, h2, hnr, (sessionPolicy_not_resumed_fields _ hnr).1, ?_⟩
  intro hd hf
  rw [retrieve_fcnt_flashValid_bkpInvalid s hd h]
  simp [hf, wrap32]

/-- Witness for C4: durable valid at 200 and joined, fast tier invalid. -/
theorem cold_loss_forces_rejoin_witness :
    (retrieve_fcnt ⟨⟨DATAVALID, 200, true, 0, 0, 0⟩, ⟨0, 0, 0⟩⟩).eeprom.fcnt = 301 ∧
    (sessionPolicy (retrieve_fcnt
      ⟨⟨DATAVALID, 200, true, 0, 0, 0⟩, ⟨0, 0, 0⟩⟩)).resumed = false :=
  ⟨(cold_loss_forces_rejoin _ (by decide)).2.2.2.2 (by decide) (by decide),
   (cold_loss_forces_rejoin _ (by decide)).2.2.1⟩

/-- C5: whenever the reconciled `xmitcount` is at least `REJOIN_LIMIT`, the
session decision takes the rejoin branch even if both tiers say joined:
no resume, the joined flag is cleared and the cleared record is saved to
EEPROM, the transmit counter register is reset to 0, `JoinMode` stays OTAA
and no saved session is installed. -/
theorem threshold_forces_rejoin (s : MachineState)
    (h : (REJOIN_LIMIT : Int) ≤ (retrieve_fcnt s).xmitcount) :
    (sessionPolicy (retrieve_fcnt s)).resumed = false ∧
    (sessionPolicy (retrieve_fcnt s)).eeprom.joinedFlag = false ∧
    (sessionPolicy (retrieve_fcnt s)).state.flash = (sessionPolicy (retrieve_fcnt s)).eeprom ∧
    (sessionPolicy (retrieve_fcnt s)).state.bkp.xmitcnt = 0 ∧
    (sessionPolicy (retrieve_fcnt s)).joinMode = JOINMODE_OTAA ∧
    (sessionPolicy (retrieve_fcnt s)).sessionSet = none := by
  have hnr : (sessionPolicy (retrieve_fcnt s)).resumed = false := by
    rw [← Bool.not_eq_true]
    intro hr
    have hc := (sessionPolicy_resumed_iff _).mp hr
    exact absurd hc.1 (not_lt.mpr h)
  obtain ⟨hs, _, hj, he, hf, hbk⟩ := sessionPolicy_not_resumed_fields _ hnr
  refine ⟨hnr, ?_, ?_, ?_, hj, hs⟩
  · rw [he]
  · rw [he, hf]
  · rw [hbk]

/-- Witness for C5: both tiers joined and valid, transmit count 300. -/
theorem threshold_forces_rejoin_witness :
    (sessionPolicy (retrieve_fcnt
      ⟨⟨DATAVALID, 200, true, 1, 2, 3⟩, ⟨DATAVALID, 250, 300⟩⟩)).resumed = false ∧
    (sessionPolicy (retrieve_fcnt
      ⟨⟨DATAVALID, 200, true, 1, 2, 3⟩, ⟨DATAVALID, 250, 300⟩⟩)).state.bkp.xmitcnt = 0 :=
  ⟨(threshold_forces_rejoin _ (by decide)).1,
   (threshold_forces_rejoin _ (by decide)).2.2.2.1⟩

/-- C6 (counterexample): with interval 60 s and elapsed 4294967245 ms the
unsigned arithmetic yields 60001 ms with a seconds value of 60, which passes
the clamp test, so the returned sleep duration of 60001 ms exceeds
60 seconds. -/
theorem sleep_exceeds_interval_counterexample :
    computeSleep 60 4294967245 = (60001, 60) ∧
    60 * 1000 < (computeSleep 60 4294967245).1 := by
  decide

/-- C6 (amended): the seconds value returned never exceeds the interval, the
millisecond value never exceeds `interval * 1000 + 999` (it can exceed
`interval * 1000` by up to 999 ms), and whenever the derived seconds value
exceeds the interval the result is clamped to exactly
`interval * 1000` ms. -/
theorem computeSleep_clamped (i e : Nat) :
    (computeSleep i e).2 ≤ i ∧
    (computeSleep i e).1 ≤ i * 1000 + 999 ∧
    (i < sub32 (sub32 (wrap32 (i * 1000)) e) 50 / 1000 →
      computeSleep i e = (wrap32 (i * 1000), i)) := by
  simp only [computeSleep]
  split_ifs with h
  · refine ⟨le_refl _, ?_, fun _ => rfl⟩
    have : wrap32 (i * 1000) ≤ i * 1000 := Nat.mod_le _ _
    omega
  · push_neg at h
    exact ⟨h, by omega, fun hgt => absurd hgt (by omega)⟩

/-- Witness for the amended C6 at Scenario D of the spec: interval 60 s,
elapsed 70000 ms, which overran the interval and is clamped to 60000 ms. -/
theorem computeSleep_clamped_witness :
    (computeSleep 60 70000).2 ≤ 60 ∧ computeSleep 60 70000 = (wrap32 (60 * 1000), 60) :=
  ⟨(computeSleep_clamped 60 70000).1, (computeSleep_clamped 60 70000).2.2 (by decide)⟩

lemma runBoot_xmitcnt_eq (s : MachineState) (o : BootOutcome) :
    (runBoot s o).state.bkp.xmitcnt
      = (sessionPolicy (retrieve_fcnt s)).state.bkp.xmitcnt := by
  cases o with
  | aborted => rfl
  | completed u a nk ak =>
    by_cases h : (sessionPolicy (retrieve_fcnt s)).resumed = true <;>
      simp [runBoot, h]

lemma toInt32_small (n : Nat) (h : n < 2147483648) : toInt32 n = (n : Int) := by
  unfold toInt32
  rw [Nat.mod_eq_of_lt (by omega)]
  rw [if_pos h]

/-- C7 (counterexample): on a boot where both tiers are valid but the
transmit count has reached the threshold, the session decision resets the
`xmitcnt` backup register to 0 at the moment the full join is requested,
even though the boot aborts before any join succeeds — so the reset does
not happen exactly when a full join succeeds. -/
theorem xmit_reset_without_join_counterexample :
    (runBoot ⟨⟨DATAVALID, 200, true, 1, 2, 3⟩,
        ⟨DATAVALID, 250, 300⟩⟩ .aborted).state.bkp.xmitcnt = 0 ∧
    (runBoot ⟨⟨DATAVALID, 200, true, 1, 2, 3⟩,
        ⟨DATAVALID, 250, 300⟩⟩ .aborted).joined = false ∧
    (300 : Nat) ≠ 0 := by
  decide

/-- C7 (amended): the `xmitcnt` backup register is reset to 0 exactly when
the session decision requests a full join (whether or not the join ever
succeeds), and on every resumed boot it changes only by the single
increment performed by the session decision. -/
theorem xmit_reset_at_join_request (s : MachineState) (o : BootOutcome)
    (h : s.bkp.xmitcnt < 2147483648) :
    ((runBoot s o).state.bkp.xmitcnt = 0 ↔ (runBoot s o).resumed = false) ∧
    ((runBoot s o).resumed = true →
      (runBoot s o).state.bkp.xmitcnt = s.bkp.xmitcnt + 1) := by
  rw [runBoot_xmitcnt_eq, runBoot_resumed_eq]
  by_cases hr : (sessionPolicy (retrieve_fcnt s)).resumed = true
  · have hcond := (sessionPolicy_resumed_iff _).mp hr
    have hb : s.bkp.datavalid = DATAVALID := by
      by_contra hb
      have := (retrieve_fcnt_bkpInvalid s hb).1
      rw [this] at hcond
      exact absurd hcond.1 (by norm_num [REJOIN_LIMIT])
    have hxc : (retrieve_fcnt s).xmitcount = (s.bkp.xmitcnt : Int) := by
      rw [(retrieve_fcnt_bkpValid s hb).2.1, toInt32_small _ h]
    have hx : (sessionPolicy (retrieve_fcnt s)).state.bkp.xmitcnt = s.bkp.xmitcnt + 1 := by
      rw [sessionPolicy_resumed_xmitcnt _ hr, hxc]
      unfold toUInt32
      rw [Int.emod_eq_of_lt (by omega) (by omega)]
      omega
    rw [hx, hr]
    refine ⟨?_, fun _ => rfl⟩
    constructor
    · intro h0
      exact absurd h0 (by omega)
    · intro hf
      exact absurd hf (by simp)
  · have hrf : (sessionPolicy (retrieve_fcnt s)).resumed = false := by
      revert hr
      cases (sessionPolicy (retrieve_fcnt s)).resumed <;> simp
    have hx := (sessionPolicy_not_resumed_fields _ hrf).2.2.2.2.2
    rw [hx, hrf]
    refine ⟨by simp, fun hf => absurd hf (by simp)⟩

/-- Witness for the amended C7: a resumed boot increments `xmitcnt`
from 5 to 6 and does not reset it. -/
theorem xmit_reset_at_join_request_witness :
    ((runBoot ⟨⟨DATAVALID, 100, true, 1, 2, 3⟩,
        ⟨DATAVALID, 10, 5⟩⟩ .aborted).state.bkp.xmitcnt = 0 ↔
      (runBoot ⟨⟨DATAVALID, 100, true, 1, 2, 3⟩,
        ⟨DATAVALID, 10, 5⟩⟩ .aborted).resumed = false) ∧
    (runBoot ⟨⟨DATAVALID, 100, true, 1, 2, 3⟩,
        ⟨DATAVALID, 10, 5⟩⟩ .aborted).state.bkp.xmitcnt = 6 :=
  ⟨(xmit_reset_at_join_request _ _ (by decide)).1,
   by rw [(xmit_reset_at_join_request _ _ (by decide)).2 (by decide)]⟩

/-- C8 (counterexample): when the durable record is invalid but the fast
registers are valid with counter 7, the reconciler adopts 7, not 0 — the
effective counter only becomes 0 when the fast tier is also invalid. -/
theorem fresh_durable_keeps_fast_counterexample :
    (retrieve_fcnt ⟨⟨0, 999, true, 4, 5, 6⟩, ⟨DATAVALID, 7, 3⟩⟩).eeprom.fcnt = 7 ∧
    (7 : Nat) ≠ 0 := by
  decide

/-- C8 (amended): on a boot where the durable validity marker mismatches,
the reconciler clears the joined flag, restores the sentinel, and persists
the reinitialised record; the effective counter becomes 0 — and the session
decision selects a full join with no saved session installed — when the
fast store is also invalid (when the fast store is valid its counter is
adopted instead). -/
theorem fresh_durable_reinit (s : MachineState) (hd : s.flash.datavalid ≠ DATAVALID) :
    (retrieve_fcnt s).eeprom.joinedFlag = false ∧
    (retrieve_fcnt s).eeprom.datavalid = DATAVALID ∧
    (retrieve_fcnt s).state.flash = (retrieve_fcnt s).eeprom ∧
    (s.bkp.datavalid ≠ DATAVALID →
      (retrieve_fcnt s).eeprom.fcnt = 0 ∧
      (sessionPolicy (retrieve_fcnt s)).resumed = false ∧
      (sessionPolicy (retrieve_fcnt s)).sessionSet = none) := by
  have hkey := retrieve_fcnt_flashInvalid s hd
  have h1 : (retrieve_fcnt s).eeprom.joinedFlag = false := by
    rw [hkey]; split_ifs <;> rfl
  have h2 : (retrieve_fcnt s).eeprom.datavalid = DATAVALID := by
    rw [hkey]; split_ifs <;> rfl
  have h3 : (retrieve_fcnt s).state.flash = (retrieve_fcnt s).eeprom := by
    rw [hkey]; split_ifs <;> rfl
  refine ⟨h1, h2, h3, fun hbn => ?_⟩
  have hf : (retrieve_fcnt s).eeprom.fcnt = 0 := by
    rw [hkey, if_neg hbn]
  have hnr : (sessionPolicy (retrieve_fcnt s)).resumed = false := by
    rw [← Bool.not_eq_true]
    intro hr
    have hc := (sessionPolicy_resumed_iff _).mp hr
    rw [(retrieve_fcnt_bkpInvalid s hbn).1] at hc
    exact absurd hc.1 (by norm_num [REJOIN_LIMIT])
  exact ⟨hf, hnr, (sessionPolicy_not_resumed_fields _ hnr).1⟩

/-- Witness for the amended C8: both tiers invalid, a fresh device. -/
theorem fresh_durable_reinit_witness :
    (retrieve_fcnt ⟨⟨0, 999, true, 4, 5, 6⟩, ⟨1, 2, 3⟩⟩).eeprom.joinedFlag = false ∧
    (retrieve_fcnt ⟨⟨0, 999, true, 4, 5, 6⟩, ⟨1, 2, 3⟩⟩).eeprom.fcnt = 0 ∧
    (sessionPolicy (retrieve_fcnt ⟨⟨0, 999, true, 4, 5, 6⟩, ⟨1, 2, 3⟩⟩)).resumed = false :=
  ⟨(fresh_durable_reinit _ (by decide)).1,
   ((fresh_durable_reinit _ (by decide)).2.2.2 (by decide)).1,
   ((fresh_durable_reinit _ (by decide)).2.2.2 (by decide)).2.1⟩

/-- C9: when the radio stack reports a pending transmit/receive operation,
`send_packet` returns without queueing anything and without touching the
in-memory record, the EEPROM, the backup registers or the LED. -/
theorem send_packet_pending_skips (st : SendState) :
    send_packet true st = (st, none) := rfl

/-- C10: after `retrieve_fcnt` returns, both validity markers hold the
sentinel: the in-memory record's `datavalid` and the `BKP_R_DATAVALID`
register both equal `DATAVALID`, whatever the initial validity of the two
tiers. -/
theorem retrieve_validates_both_tiers (s : MachineState) :
    (retrieve_fcnt s).eeprom.datavalid = DATAVALID ∧
    (retrieve_fcnt s).state.bkp.datavalid = DATAVALID := by
  unfold retrieve_fcnt
  split_ifs <;> simp_all

end LoraE5
